import Mathlib

/-
Verification development for the dormitory management demo
(create_dorm_database.py, dorm_mcp_server.py, dorm_rag_system.py).

Shallow embedding conventions:
 - a SQLite result row is an association list from column names to values;
 - the raw outcome of one store access (cursor.execute + fetchall) is an
   oracle value of type `Except String (List Row)`; `DatabaseConnection.execute_query`
   wraps it exactly as the source does (sqlite3.Error becomes one error row);
 - a raised Python exception (for example a KeyError while formatting a row)
   is modelled as an `Except.error` result of the operation;
 - Python ints are `Int`, Python str is `String`.
-/

/-! ## String helpers (Python str.strip / str.lower / str.upper / str.join) -/

/-- Python whitespace set used by str.strip: space, tab, newline, carriage
return, vertical tab, form feed. -/
def isPyWs (c : Char) : Bool :=
  c == ' ' || c == '\t' || c == '\n' || c == '\r' || c == '\x0b' || c == '\x0c'

/-- Python str.strip(): drop leading and trailing whitespace. -/
def pyStrip (s : String) : String :=
  String.mk (((s.data.dropWhile isPyWs).reverse.dropWhile isPyWs).reverse)

/-- Python str.lower() restricted to ASCII (all characters relevant to the
claims are ASCII; this also matches the ASCII-only case folding SQLite's
LIKE applies). -/
def lowerStr (s : String) : String :=
  String.mk (s.data.map Char.toLower)

/-- Python str.upper() restricted to ASCII. -/
def upperStr (s : String) : String :=
  String.mk (s.data.map Char.toUpper)

/-- Python sep.join(l). -/
def joinSep (sep : String) : List String → String
  | [] => ""
  | [x] => x
  | x :: y :: ys => x ++ sep ++ joinSep sep (y :: ys)

/-- Case-sensitive: t is a prefix of s (character-wise ==). -/
def hasPreCS : List Char → List Char → Bool
  | [], _ => true
  | _ :: _, [] => false
  | a :: as, b :: bs => a == b && hasPreCS as bs

/-- Case-sensitive: t occurs as a contiguous substring of s.  Embeds the
Python `k in s` test on strings. -/
def hasSubCS (t : List Char) : List Char → Bool
  | [] => hasPreCS t []
  | c :: cs => hasPreCS t (c :: cs) || hasSubCS t cs

/-- Python `needle in hay` on strings. -/
def containsSub (needle hay : String) : Bool :=
  hasSubCS needle.data hay.data

/-- Python s.startswith(pre). -/
def startsWithB (s pre : String) : Bool :=
  hasPreCS pre.data s.data

/-- ASCII-case-insensitive: t is a prefix of s. -/
def hasPreCI : List Char → List Char → Bool
  | [], _ => true
  | _ :: _, [] => false
  | a :: as, b :: bs => (a.toLower == b.toLower) && hasPreCI as bs

/-- ASCII-case-insensitive: t occurs as a contiguous substring of s. -/
def hasSubCI (t : List Char) : List Char → Bool
  | [] => hasPreCI t []
  | c :: cs => hasPreCI t (c :: cs) || hasSubCI t cs

/-- ASCII-case-insensitive substring test on strings. -/
def ciContains (t s : String) : Bool :=
  hasSubCI t.data s.data

/-- All suffixes of a character list, from the list itself down to []. -/
def tailsL : List Char → List (List Char)
  | [] => [[]]
  | c :: cs => (c :: cs) :: tailsL cs

/-- SQLite LIKE pattern matching: `%` matches any sequence (so the rest of
the pattern may match any suffix), `_` matches one character, ordinary
characters compare ASCII-case-insensitively (SQLite's default LIKE
semantics, which the server never changes). -/
def likeMatch : List Char → List Char → Bool
  | [], s => s.isEmpty
  | p :: ps, s =>
    if p == '%' then (tailsL s).any (fun t => likeMatch ps t)
    else if p == '_' then
      match s with
      | [] => false
      | _ :: cs => likeMatch ps cs
    else
      match s with
      | [] => false
      | c :: cs => (p.toLower == c.toLower) && likeMatch ps cs

/-- The LIKE pattern the server builds around a search term:
`LIKE '%term%'`. -/
def likePat (t : List Char) : List Char := '%' :: (t ++ ['%'])

/-! ## Rows and the store-access boundary (dorm_mcp_server.py lines 12-26) -/

/-- A SQLite cell value as seen from Python: an integer, a text, or NULL. -/
inductive Value where
  | int (n : Int) : Value
  | text (s : String) : Value
  | null : Value
deriving DecidableEq, Repr

/-- Python truthiness of a cell value (used by `if s.get('room_number')`
and by the truthiness filter in get_schema). -/
def Value.truthy : Value → Bool
  | .int n => n != 0
  | .text s => !s.isEmpty
  | .null => false

/-- Python str() / f-string rendering of a cell value. -/
def Value.render : Value → String
  | .int n => toString n
  | .text s => s
  | .null => "None"

/-- One result row: a dict from column names to values. -/
abbrev Row := List (String × Value)

/-- Mandatory dict access `r[k]`: raises KeyError when the key is absent. -/
def getV (r : Row) (k : String) : Except String Value :=
  match List.lookup k r with
  | some v => Except.ok v
  | none => Except.error ("KeyError: " ++ k)

/-- The raw outcome of one store access: either the fetched rows or a
sqlite3.Error message. -/
abbrev Exec := String → Except String (List Row)

/-- An operation result that is not a raised exception. -/
def isOkB {ε α : Type} : Except ε α → Bool
  | Except.ok _ => true
  | Except.error _ => false

/-- DatabaseConnection.execute_query (dorm_mcp_server.py lines 15-26): a
sqlite3.Error is caught and becomes a single row holding only the key
"error"; otherwise the fetched rows are returned unchanged. -/
def execute_query (res : Except String (List Row)) : List Row :=
  match res with
  | .ok rows => rows
  | .error e => [[("error", Value.text e)]]

/-! ## Fixed SQL texts of the dispatcher (content is opaque to the oracle) -/

def schemaSQL : String :=
  "SELECT sql FROM sqlite_master WHERE type=\x27table\x27"

def studentsSQL : String := "SELECT * FROM students"

def roomsSQL : String := "SELECT * FROM rooms"

def occupancySQL : String :=
  "SELECT r.floor, r.room_number, COUNT(o.student_id) AS occupied, r.capacity FROM rooms r LEFT JOIN occupancy o ON r.room_id = o.room_id AND o.check_out_date IS NULL GROUP BY r.room_id ORDER BY r.floor, r.room_number"

def maintenanceSQL : String :=
  "SELECT m.request_id, r.floor, r.room_number, m.issue_description, m.status, m.reported_date FROM maintenance m JOIN rooms r ON m.room_id = r.room_id ORDER BY m.reported_date DESC"

def availabilitySQL : String :=
  "SELECT r.floor, r.room_number, r.capacity, (SELECT COUNT(*) FROM occupancy o WHERE o.room_id = r.room_id AND o.check_out_date IS NULL) AS occupied, r.capacity - (SELECT COUNT(*) FROM occupancy o WHERE o.room_id = r.room_id AND o.check_out_date IS NULL) AS available FROM rooms r ORDER BY r.floor, r.room_number"

def predictSQL : String :=
  "SELECT strftime(\x27%Y-%m\x27, check_in_date) AS ym, COUNT(*) AS num FROM occupancy WHERE check_out_date IS NULL OR check_out_date > date(\x27now\x27,\x27-1 year\x27) GROUP BY ym ORDER BY ym"

/-- The interpolated SQL of find_student (dorm_mcp_server.py lines 123-131). -/
def find_student_sql (term : String) : String :=
  "SELECT s.*, r.floor, r.room_number FROM students s LEFT JOIN occupancy o ON s.student_id = o.student_id AND o.check_out_date IS NULL LEFT JOIN rooms r ON o.room_id = r.room_id WHERE s.student_id LIKE \x27%"
    ++ term ++ "%\x27 OR s.name LIKE \x27%" ++ term ++ "%\x27"

/-- The interpolated SQL of room_occupants (dorm_mcp_server.py lines 152-160). -/
def room_occupants_sql (floor : Int) (room_number : String) : String :=
  "SELECT s.student_id, s.name, s.program, o.check_in_date FROM students s JOIN occupancy o ON s.student_id = o.student_id JOIN rooms r ON o.room_id = r.room_id WHERE r.floor = "
    ++ toString floor ++ " AND r.room_number = \x27" ++ room_number
    ++ "\x27 AND o.check_out_date IS NULL"

/-! ## Resources (dorm_mcp_server.py lines 41-95) -/

/-- get_schema (lines 41-45): joins the truthy "sql" cells; rows lacking the
key (in particular the error row) are silently dropped by the generator's
filter, so this operation never raises. -/
def get_schema (exec : Exec) : String :=
  let items := execute_query (exec schemaSQL)
  joinSep "\n\n" (items.filterMap (fun it =>
    match List.lookup "sql" it with
    | some v => if v.truthy then some v.render else none
    | none => none))

/-- get_students (lines 47-51): mandatory key accesses inside an f-string. -/
def get_students (exec : Exec) : Except String String := do
  let rows := execute_query (exec studentsSQL)
  let lines ← rows.mapM (fun r => do
    let sid ← getV r "student_id"
    let nm ← getV r "name"
    let st ← getV r "status"
    pure ("ID: " ++ sid.render ++ ", Name: " ++ nm.render ++ ", Status: " ++ st.render))
  pure (joinSep "\n" lines)

/-- get_rooms (lines 53-60). -/
def get_rooms (exec : Exec) : Except String String := do
  let rows := execute_query (exec roomsSQL)
  let lines ← rows.mapM (fun r => do
    let rn ← getV r "room_number"
    let fl ← getV r "floor"
    let cap ← getV r "capacity"
    pure ("Room: " ++ rn.render ++ " (Floor " ++ fl.render ++ "), Capacity: " ++ cap.render))
  pure (joinSep "\n" lines)

/-- get_occupancy (lines 62-79). -/
def get_occupancy (exec : Exec) : Except String String := do
  let rows := execute_query (exec occupancySQL)
  let lines ← rows.mapM (fun r => do
    let rn ← getV r "room_number"
    let fl ← getV r "floor"
    let oc ← getV r "occupied"
    let cap ← getV r "capacity"
    pure ("Room " ++ rn.render ++ " (Floor " ++ fl.render ++ "): " ++ oc.render ++ "/"
      ++ cap.render ++ " occupied"))
  pure (joinSep "\n" lines)

/-- get_maintenance (lines 81-95). -/
def get_maintenance (exec : Exec) : Except String String := do
  let rows := execute_query (exec maintenanceSQL)
  let lines ← rows.mapM (fun m => do
    let rid ← getV m "request_id"
    let rn ← getV m "room_number"
    let fl ← getV m "floor"
    let iss ← getV m "issue_description"
    let st ← getV m "status"
    pure ("ID: " ++ rid.render ++ ", Room: " ++ rn.render ++ " (Floor " ++ fl.render
      ++ "), Issue: " ++ iss.render ++ ", Status: " ++ st.render))
  pure (joinSep "\n" lines)

/-! ## query_database tool (dorm_mcp_server.py lines 98-118) -/

def forbiddenKeywords : List String :=
  ["DROP", "DELETE", "UPDATE", "INSERT", "ALTER", "CREATE"]

/-- The rejection test of query_database: a forbidden keyword occurs in the
uppercased text, or the stripped uppercased text does not start with SELECT. -/
def sql_rejectedB (q : String) : Bool :=
  forbiddenKeywords.any (fun k => containsSub k (upperStr q)) ||
    !(startsWithB (upperStr (pyStrip q)) "SELECT")

/-- query_database (lines 98-118): keyword filter, SELECT prefix check, then
execution; an error row yields an inline "Error: ..." line, otherwise the
rows are rendered as a pipe-delimited table (mandatory key accesses). -/
def query_database (exec : Exec) (sql_query : String) : Except String String :=
  if forbiddenKeywords.any (fun k => containsSub k (upperStr sql_query)) then
    Except.ok "Error: Only SELECT queries are allowed."
  else if !(startsWithB (upperStr (pyStrip sql_query)) "SELECT") then
    Except.ok "Error: Only SELECT queries are allowed."
  else
    match execute_query (exec sql_query) with
    | [] => Except.ok "No results."
    | r0 :: rest =>
      match List.lookup "error" r0 with
      | some v => Except.ok ("Error: " ++ v.render)
      | none => do
        let keys := r0.map Prod.fst
        let header := joinSep " | " keys
        let sep := String.mk (List.replicate header.length '-')
        let body ← (r0 :: rest).mapM (fun r => do
          let cells ← keys.mapM (fun k => do
            let v ← getV r k
            pure v.render)
          pure (joinSep " | " cells))
        pure (joinSep "\n" (header :: sep :: body))

/-! ## find_student tool (dorm_mcp_server.py lines 120-147) -/

/-- The no-match message of find_student. -/
def no_match_msg (term : String) : String :=
  "No students found matching \x27" ++ term ++ "\x27."

/-- One loop body of find_student (lines 135-146): the room label is
computed first (via the non-raising .get), then the mandatory key accesses of
the f-string run in source order. -/
def find_student_block (s : Row) : Except String String := do
  let room ← (match List.lookup "room_number" s with
    | some v =>
      if v.truthy then do
        let fl ← getV s "floor"
        pure ("Room " ++ v.render ++ " (Floor " ++ fl.render ++ ")")
      else pure "Not assigned"
    | none => pure "Not assigned")
  let sid ← getV s "student_id"
  let nm ← getV s "name"
  let pg ← getV s "program"
  let st ← getV s "status"
  pure ("ID: " ++ sid.render ++ "\n" ++ "Name: " ++ nm.render ++ "\n"
    ++ "Program: " ++ pg.render ++ "\n" ++ "Status: " ++ st.render ++ "\n"
    ++ "Room: " ++ room ++ "\n")

/-- The row-rendering part of find_student (lines 132-147). -/
def find_student_render (term : String) (rows : List Row) : Except String String :=
  if rows.isEmpty then Except.ok (no_match_msg term)
  else do
    let blocks ← rows.mapM find_student_block
    pure (joinSep "\n" blocks)

/-- find_student as the dispatcher runs it: one store access, then rendering. -/
def find_student (exec : Exec) (term : String) : Except String String :=
  find_student_render term (execute_query (exec (find_student_sql term)))

/-! ## room_occupants tool (dorm_mcp_server.py lines 149-171) -/

def room_occupants (exec : Exec) (floor : Int) (room_number : String) :
    Except String String :=
  let rows := execute_query (exec (room_occupants_sql floor room_number))
  if rows.isEmpty then
    Except.ok ("No current occupants found for Room " ++ room_number ++ " on Floor "
      ++ toString floor ++ ".")
  else do
    let entries ← rows.mapM (fun o => do
      let sid ← getV o "student_id"
      let nm ← getV o "name"
      let pg ← getV o "program"
      let ci ← getV o "check_in_date"
      pure ("ID: " ++ sid.render ++ "\n" ++ "Name: " ++ nm.render ++ "\n"
        ++ "Program: " ++ pg.render ++ "\n" ++ "Check-in: " ++ ci.render ++ "\n"))
    pure (joinSep "\n"
      (("Occupants of Room " ++ room_number ++ " (Floor " ++ toString floor ++ "):")
        :: String.mk (List.replicate 40 '-') :: entries))

/-! ## check_availability tool (dorm_mcp_server.py lines 173-199) -/

/-- One inner-loop iteration of check_availability: evaluation order of the
source is floor test, then available (for the status), then room_number,
occupied, capacity inside the f-string. -/
def avail_row_line (r : Row) (f : Int) : Except String (Option String) := do
  let fl ← getV r "floor"
  if fl == Value.int f then do
    let av ← getV r "available"
    let status := if av == Value.int 0 then "FULL" else (av.render ++ " beds available")
    let rn ← getV r "room_number"
    let oc ← getV r "occupied"
    let cap ← getV r "capacity"
    pure (some ("Room " ++ rn.render ++ ": " ++ oc.render ++ "/" ++ cap.render
      ++ " occupied - " ++ status))
  else
    pure none

def check_availability (exec : Exec) : Except String String := do
  let rows := execute_query (exec availabilitySQL)
  let lines ← ([1, 2, 3] : List Int).foldlM (fun acc f => do
    let rl ← rows.foldlM (fun acc2 r => do
      let ol ← avail_row_line r f
      pure (match ol with
        | some l => acc2 ++ [l]
        | none => acc2)) ([] : List String)
    pure (acc ++ ["\nFloor " ++ toString f ++ ":", String.mk (List.replicate 40 '-')] ++ rl))
    ([] : List String)
  pure (joinSep "\n" ("Room Availability:" :: lines))

/-! ## predict_occupancy tool (dorm_mcp_server.py lines 201-218)

The least-squares fit that sklearn's LinearRegression performs is modelled
exactly over the rationals; numpy's astype(int) truncates toward zero. -/

def sumq (l : List ℚ) : ℚ := l.foldl (· + ·) 0

/-- Ordinary least-squares slope over x = 0, 1, ..., n-1. -/
def linfit_slope (ys : List Int) : ℚ :=
  let n : ℚ := (ys.length : ℚ)
  let xs : List ℚ := (List.range ys.length).map (fun i => (i : ℚ))
  let sx := sumq xs
  let sy := sumq (ys.map (fun y => (y : ℚ)))
  let sxy := sumq (List.zipWith (fun x y => x * (y : ℚ)) xs ys)
  let sxx := sumq (xs.map (fun x => x * x))
  (n * sxy - sx * sy) / (n * sxx - sx * sx)

/-- Ordinary least-squares intercept over x = 0, 1, ..., n-1. -/
def linfit_intercept (ys : List Int) : ℚ :=
  let n : ℚ := (ys.length : ℚ)
  (sumq (ys.map (fun y => (y : ℚ)))
    - linfit_slope ys * sumq ((List.range ys.length).map (fun i => (i : ℚ)))) / n

/-- numpy astype(int): truncation toward zero. -/
def truncToInt (q : ℚ) : Int :=
  if q < 0 then ⌈q⌉ else ⌊q⌋

/-- The projected integers, one per future month (model.predict over
x = n, ..., n + months_ahead - 1, then astype(int)). -/
def predict_preds (ys : List Int) (months : ℕ) : List Int :=
  (List.range months).map (fun i =>
    truncToInt (linfit_intercept ys + linfit_slope ys * ((ys.length + i : ℕ) : ℚ)))

/-- The rendered prediction lines (line 218). -/
def predict_render (ys : List Int) (months : ℕ) : String :=
  joinSep "\n" (((List.range months).zip (predict_preds ys months)).map (fun p =>
    "Month +" ++ toString (p.1 + 1) ++ ": " ++ toString p.2 ++ " residents"))

/-- predict_occupancy on the monthly bucket counts (the num column of the
GROUP BY query, in ym order): lines 211-218. -/
def predict_occupancy_counts (ys : List Int) (months : ℕ) : String :=
  if ys.length < 2 then "Not enough historical data."
  else predict_render ys months

/-- predict_occupancy as the dispatcher runs it (lines 201-218): the bucket
rows come back from the store; the counts are the mandatory "num" cells. -/
def predict_occupancy_op (exec : Exec) (months : ℕ) : Except String String := do
  let rows := execute_query (exec predictSQL)
  if rows.length < 2 then pure "Not enough historical data."
  else do
    let ys ← rows.mapM (fun r => do
      let v ← getV r "num"
      match v with
      | Value.int n => pure n
      | _ => Except.error "TypeError: non-integer count")
    pure (predict_render ys months)

/-! ## The relational store and update_room_capacity (lines 220-238) -/

structure Student where
  student_id : String
  name : String
  gender : String
  program : String
  contact_number : String
  emergency_contact : String
  status : String
deriving DecidableEq, Repr

structure Occ where
  occupancy_id : Int
  student_id : String
  room_id : Int
  check_in_date : String
  check_out_date : Option String
deriving DecidableEq, Repr

structure Room where
  room_id : Int
  floor : Int
  room_number : String
  capacity : Int
deriving DecidableEq, Repr

structure Store where
  students : List Student
  rooms : List Room
  occupancy : List Occ
deriving DecidableEq, Repr

/-- update_room_capacity (dorm_mcp_server.py lines 220-238) acting on the
relational store: reject capacity < 1 before any store access; UPDATE whose
rowcount is 0 leaves the store unchanged and reports no such room; otherwise
the capacity is persisted (commit) and success reported. -/
def update_room_capacity_store (db : Store) (room_id new_capacity : Int) :
    Store × String :=
  if new_capacity < 1 then (db, "Capacity must be ≥ 1.")
  else if (db.rooms.filter (fun r => r.room_id == room_id)).isEmpty then
    (db, "No room with ID " ++ toString room_id ++ " found.")
  else
    ({ db with rooms := db.rooms.map (fun r =>
        if r.room_id == room_id then { r with capacity := new_capacity } else r) },
      "Room " ++ toString room_id ++ " capacity set to " ++ toString new_capacity ++ ".")

/-- update_room_capacity with the store access abstracted: the oracle yields
the UPDATE's rowcount or a raised exception message; exceptions are caught
and reported inline as "Update error: ..." (lines 226-238). -/
def update_room_capacity_op (res : Except String ℕ) (room_id new_capacity : Int) :
    String :=
  if new_capacity < 1 then "Capacity must be ≥ 1."
  else
    match res with
    | Except.error e => "Update error: " ++ e
    | Except.ok 0 => "No room with ID " ++ toString room_id ++ " found."
    | Except.ok (_ + 1) =>
      "Room " ++ toString room_id ++ " capacity set to " ++ toString new_capacity ++ "."

/-! ## Relational meaning of the find_student query (lines 123-131) -/

/-- The open-occupancy rows of one student joined (LEFT JOIN) to their room:
no open occupancy yields the single all-NULL right side; an open occupancy
whose room id matches no room yields a NULL room.  The WHERE clause of the
query only mentions student columns, so it is applied to the student list
before expansion. -/
def student_room_options (db : Store) (s : Student) : List (Option Room) :=
  let occs := db.occupancy.filter (fun o =>
    o.student_id == s.student_id && o.check_out_date.isNone)
  if occs.isEmpty then [none]
  else occs.flatMap (fun o =>
    let rs := db.rooms.filter (fun r => r.room_id == o.room_id)
    if rs.isEmpty then [none] else rs.map some)

/-- SELECT s.*, r.floor, r.room_number for one joined row. -/
def student_row (s : Student) (r : Option Room) : Row :=
  [("student_id", Value.text s.student_id), ("name", Value.text s.name),
   ("gender", Value.text s.gender), ("program", Value.text s.program),
   ("contact_number", Value.text s.contact_number),
   ("emergency_contact", Value.text s.emergency_contact),
   ("status", Value.text s.status),
   ("floor", match r with | some rm => Value.int rm.floor | none => Value.null),
   ("room_number", match r with | some rm => Value.text rm.room_number | none => Value.null)]

/-- The WHERE test of the query: SQLite LIKE with the interpolated pattern,
on student_id or name. -/
def student_like_match (term : String) (s : Student) : Bool :=
  likeMatch (likePat term.data) s.student_id.data
    || likeMatch (likePat term.data) s.name.data

/-- The rows the find_student query returns on a given store. -/
def find_student_rows (db : Store) (term : String) : List Row :=
  (db.students.filter (student_like_match term)).flatMap (fun s =>
    (student_room_options db s).map (fun r => student_row s r))

/-- find_student evaluated over the relational store. -/
def find_student_pure (db : Store) (term : String) : Except String String :=
  find_student_render term (find_student_rows db term)

/-- Modelled from the spec words of C3 only (for comparison with the code):
the same operation with a case-SENSITIVE substring match, as the claim
states it. -/
def find_student_spec_cs (db : Store) (term : String) : Except String String :=
  find_student_render term
    ((db.students.filter (fun s =>
        containsSub term s.student_id || containsSub term s.name)).flatMap (fun s =>
      (student_room_options db s).map (fun r => student_row s r)))

/-- The spec-side matcher: ASCII-case-insensitive substring on id or name. -/
def ci_match (term : String) (s : Student) : Bool :=
  ciContains term s.student_id || ciContains term s.name

/-- The student's current room: the (unique, under the key invariants) room
among the joined options. -/
def cur_room (db : Store) (s : Student) : Option Room :=
  (student_room_options db s).headD none

/-- The rendered room label: a NULL room or an empty room number renders as
Not assigned (Python truthiness). -/
def room_label : Option Room → String
  | some rm =>
    if rm.room_number.isEmpty then "Not assigned"
    else "Room " ++ rm.room_number ++ " (Floor " ++ toString rm.floor ++ ")"
  | none => "Not assigned"

/-- The spec-side per-student block. -/
def student_block (db : Store) (s : Student) : String :=
  "ID: " ++ s.student_id ++ "\n" ++ "Name: " ++ s.name ++ "\n"
    ++ "Program: " ++ s.program ++ "\n" ++ "Status: " ++ s.status ++ "\n"
    ++ "Room: " ++ room_label (cur_room db s) ++ "\n"

/-! ## The data generator (create_dorm_database.py)

Only the parts that determine occupancy structure are relevant to any claim:
random names, contact numbers and dates are abstracted as empty strings (they
do not affect room assignment or the open/closed state of a record, which is
determined by the student's deterministic status, lines 100 and 132-134).
The random room choices are modelled by a list of indices into the available
list (choices.getD i 0 mod available.length), so every possible run of
random.choice corresponds to some index list and conversely. -/

/-- The 15 rooms (3 floors, 5 per floor, capacity 4), lines 57-69. -/
def gen_rooms : List Room :=
  (List.range 3).flatMap (fun fi =>
    (List.range 5).map (fun ni =>
      { room_id := (fi * 5 + ni + 1 : Int), floor := (fi + 1 : Int),
        room_number := toString (fi + 1) ++ "0" ++ toString (ni + 1), capacity := 4 }))

/-- The 40 students, lines 92-102: the first 12 are Checked Out. -/
def gen_students : List Student :=
  (List.range 40).map (fun i =>
    { student_id := "STU" ++ toString (2023001 + i),
      name := "", gender := "", program := "", contact_number := "",
      emergency_contact := "",
      status := if i + 1 ≤ 12 then "Checked Out" else "Active" })

def gen_room_ids : List Int := gen_rooms.map (fun r => r.room_id)

/-- The occupancy generation loop (lines 119-135): each student in turn is
assigned to a room that still has fewer than 4 records; the loop breaks when
no room is available; a record is closed exactly when the student's status
is Checked Out. -/
def assign_occupancy : List Student → (Int → ℕ) → List ℕ → ℕ → List Occ
  | [], _, _, _ => []
  | s :: rest, counts, chs, idx =>
    let available := gen_room_ids.filter (fun rid => counts rid < 4)
    if available.isEmpty then []
    else
      let rid := available.getD (chs.headD 0 % available.length) 0
      { occupancy_id := (idx : Int), student_id := s.student_id, room_id := rid,
        check_in_date := "",
        check_out_date := if s.status == "Checked Out" then some "" else none }
        :: assign_occupancy rest
            (fun r => if r == rid then counts r + 1 else counts r) chs.tail (idx + 1)

/-- The store the generator produces for a given sequence of random room
choices. -/
def gen_store (chs : List ℕ) : Store :=
  { students := gen_students, rooms := gen_rooms,
    occupancy := assign_occupancy gen_students (fun _ => 0) chs 1 }

/-- The number of open occupancy records of one room. -/
def open_count (db : Store) (rid : Int) : ℕ :=
  (db.occupancy.filter (fun o => o.room_id == rid && o.check_out_date.isNone)).length

/-- The occupancy invariant the spec states: no room's open-record count
exceeds its capacity. -/
def room_invB (db : Store) : Bool :=
  db.rooms.all (fun r => (open_count db r.room_id : Int) ≤ r.capacity)

/-! ## The RAG chat loop (dorm_rag_system.py) -/

structure Msg where
  role : String
  content : String
deriving DecidableEq, Repr

def max_history_length : ℕ := 10

/-- One call of DormitoryRAG.query_ollama (dorm_rag_system.py lines 166-185)
restricted to its effect on conversation_history: evict the two oldest
entries once the history has reached 2 * max_history_length, append the user
message, and append the assistant message only when the remote call succeeds
(outcome = some reply); a transport failure (outcome = none) is caught and
leaves only the user message appended. -/
def query_ollama_step (hist : List Msg) (prompt : String) (outcome : Option String) :
    List Msg :=
  let h1 := if max_history_length * 2 ≤ hist.length then hist.drop 2 else hist
  let h2 := h1 ++ [⟨"user", prompt⟩]
  match outcome with
  | some reply => h2 ++ [⟨"assistant", reply⟩]
  | none => h2

/-- The history after a sequence of chat turns starting from the empty
history of __init__. -/
def run_turns (ts : List (String × Option String)) : List Msg :=
  ts.foldl (fun h t => query_ollama_step h t.1 t.2) []

/-- The history consists of consecutive user/assistant pairs. -/
def wellPaired : List Msg → Bool
  | [] => true
  | [_] => false
  | u :: a :: rest => u.role == "user" && a.role == "assistant" && wellPaired rest

/-! ## The interactive loop (dorm_rag_system.py lines 204-225) -/

inductive CliStep where
  | terminated : CliStep
  | turn (input : String) : CliStep
deriving DecidableEq, Repr

/-- One iteration of run_cli on an input line: strip it; an empty result or
(case-insensitively) exit/quit terminates the loop; anything else becomes a
turn (handled by the MCP tool call or the RAG fallback). -/
def run_cli_step (line : String) : CliStep :=
  let u := pyStrip line
  if u.isEmpty || (lowerStr u == "exit" || lowerStr u == "quit") then
    CliStep.terminated
  else CliStep.turn u

/-! ## The vector store retrieval (dorm_rag_system.py lines 187-202) -/

/-- One chroma sub-index: its current size and its query behaviour, which
may fail (for example chroma rejects n_results = 0 on an empty collection). -/
structure Collection where
  count : ℕ
  q : String → ℕ → Except String (List String)

/-- One loop iteration of query_vector_store: ask for min(k, count) nearest
neighbours; a raised exception is swallowed by the bare except and the
sub-index contributes nothing. -/
def col_fetch (c : Collection) (query : String) (k : ℕ) : List String :=
  match c.q query (min k c.count) with
  | Except.ok docs => docs
  | Except.error _ => []

/-- query_vector_store: extend the result list over the sub-indexes in their
fixed iteration order, then truncate to the first k items. -/
def query_vector_store (cols : List Collection) (query : String) (k : ℕ) :
    List String :=
  (cols.foldl (fun acc c => acc ++ col_fetch c query k) []).take k

/-! ## Theorems -/

/-- C8 counterexample: the empty input line terminates the loop although it
matches neither exit nor quit, refuting the claim that the exit keywords are
the only way out of the awaiting-input state. -/
theorem C8_counterexample :
    run_cli_step "" = CliStep.terminated ∧
      lowerStr (pyStrip "") ≠ "exit" ∧ lowerStr (pyStrip "") ≠ "quit" := by
  decide

/-- C8 (amended): an input line leaves the awaiting-input state without
producing a turn exactly when it strips to the empty string or strips to
exit/quit in any letter case; every other line becomes a turn carrying the
stripped input. -/
theorem C8_amended (line : String) :
    (run_cli_step line = CliStep.terminated ↔
      ((pyStrip line).isEmpty = true ∨ lowerStr (pyStrip line) = "exit" ∨
        lowerStr (pyStrip line) = "quit")) ∧
    ((pyStrip line).isEmpty = false → lowerStr (pyStrip line) ≠ "exit" →
      lowerStr (pyStrip line) ≠ "quit" →
      run_cli_step line = CliStep.turn (pyStrip line)) := by
  have hmain : run_cli_step line =
      if ((pyStrip line).isEmpty ||
          (lowerStr (pyStrip line) == "exit" || lowerStr (pyStrip line) == "quit")) then
        CliStep.terminated
      else CliStep.turn (pyStrip line) := rfl
  constructor
  · rw [hmain]
    split
    next h =>
      simp only [Bool.or_eq_true, beq_iff_eq] at h
      exact iff_of_true rfl h
    next h =>
      simp only [Bool.or_eq_true, beq_iff_eq] at h
      push_neg at h
      refine iff_of_false (by simp) ?_
      rintro (h1 | h2 | h3)
      · exact absurd h1 (by simpa using h.1)
      · exact absurd h2 h.2.1
      · exact absurd h3 h.2.2
  · intro h1 h2 h3
    rw [hmain, if_neg (by simp [h1, h2, h3])]

/-- C8 witness: a concrete non-empty, non-exit line produces a turn. -/
theorem C8_witness :
    (pyStrip "show rooms").isEmpty = false ∧
      run_cli_step "show rooms" = CliStep.turn (pyStrip "show rooms") :=
  ⟨by decide, (C8_amended "show rooms").2 (by decide) (by decide) (by decide)⟩

/-- Helper: a well-paired history has even length. -/
theorem wellPaired_even : ∀ h : List Msg, wellPaired h = true → h.length % 2 = 0 := by
  intro h
  induction h using wellPaired.induct with
  | case1 => intro _; simp
  | case2 x => intro hw; simp [wellPaired] at hw
  | case3 u a rest ih =>
    intro hw
    simp only [wellPaired, Bool.and_eq_true] at hw
    have h2 := ih hw.2
    simp only [List.length_cons]
    omega

/-- Helper: appending one user/assistant pair preserves pairing. -/
theorem wellPaired_append_pair (p r : String) :
    ∀ h : List Msg, wellPaired h = true →
      wellPaired (h ++ [⟨"user", p⟩, ⟨"assistant", r⟩]) = true := by
  intro h
  induction h using wellPaired.induct with
  | case1 => intro _; simp [wellPaired]
  | case2 x => intro hw; simp [wellPaired] at hw
  | case3 u a rest ih =>
    intro hw
    simp only [wellPaired, Bool.and_eq_true] at hw
    have h2 := ih hw.2
    simp only [List.cons_append, wellPaired, Bool.and_eq_true]
    exact ⟨hw.1, h2⟩

/-- Helper: one chat turn can never push the history past
2 * max_history_length + 1 entries. -/
theorem qos_len_le (hist : List Msg) (p : String) (o : Option String)
    (h : hist.length ≤ 2 * max_history_length + 1) :
    (query_ollama_step hist p o).length ≤ 2 * max_history_length + 1 := by
  cases o <;> simp only [query_ollama_step] <;> split <;>
    simp only [List.length_append, List.length_drop, List.length_cons,
      List.length_nil, max_history_length] at * <;> omega

/-- Helper: the global bound holds along any fold of chat turns. -/
theorem run_turns_len_aux :
    ∀ (ts : List (String × Option String)) (hist : List Msg),
      hist.length ≤ 2 * max_history_length + 1 →
      (ts.foldl (fun h t => query_ollama_step h t.1 t.2) hist).length ≤
        2 * max_history_length + 1 := by
  intro ts
  induction ts with
  | nil => intro hist h; simpa using h
  | cons t ts ih =>
    intro hist h
    simp only [List.foldl_cons]
    exact ih _ (qos_len_le hist t.1 t.2 h)

/-- Helper: a successful turn preserves pairing and the 2 * max bound. -/
theorem qos_succ_inv (hist : List Msg) (p r : String)
    (hw : wellPaired hist = true) (hl : hist.length ≤ 2 * max_history_length) :
    wellPaired (query_ollama_step hist p (some r)) = true ∧
      (query_ollama_step hist p (some r)).length ≤ 2 * max_history_length := by
  have heven := wellPaired_even hist hw
  by_cases hc : max_history_length * 2 ≤ hist.length
  · cases hist with
    | nil => simp [max_history_length] at hc
    | cons u t =>
      cases t with
      | nil => simp [wellPaired] at hw
      | cons a rest =>
        simp only [wellPaired, Bool.and_eq_true] at hw
        have hstep : query_ollama_step (u :: a :: rest) p (some r)
            = rest ++ [⟨"user", p⟩] ++ [⟨"assistant", r⟩] := by
          simp only [query_ollama_step]
          rw [if_pos hc]
          rfl
        rw [hstep]
        constructor
        · have hp := wellPaired_append_pair p r rest hw.2
          simpa [List.append_assoc] using hp
        · simp only [List.length_append, List.length_cons, List.length_nil] at hl ⊢
          omega
  · have hstep : query_ollama_step hist p (some r)
        = hist ++ [⟨"user", p⟩] ++ [⟨"assistant", r⟩] := by
      simp only [query_ollama_step]
      rw [if_neg hc]
    rw [hstep]
    constructor
    · simpa [List.append_assoc] using wellPaired_append_pair p r hist hw
    · simp only [List.length_append, List.length_cons, List.length_nil]
      simp only [max_history_length] at hc ⊢
      omega

/-- Helper: along all-successful turns the history stays well paired and
within 2 * max_history_length. -/
theorem run_turns_succ_aux :
    ∀ (ts : List (String × Option String)) (hist : List Msg),
      (∀ t ∈ ts, (t.2).isSome = true) →
      wellPaired hist = true → hist.length ≤ 2 * max_history_length →
      wellPaired (ts.foldl (fun h t => query_ollama_step h t.1 t.2) hist) = true ∧
        (ts.foldl (fun h t => query_ollama_step h t.1 t.2) hist).length ≤
          2 * max_history_length := by
  intro ts
  induction ts with
  | nil => intro hist _ hw hl; exact ⟨hw, hl⟩
  | cons t ts ih =>
    intro hist hall hw hl
    obtain ⟨r, hr⟩ := Option.isSome_iff_exists.mp (hall t (by simp))
    simp only [List.foldl_cons, hr]
    have hstep := qos_succ_inv hist t.1 r hw hl
    exact ih _ (fun x hx => hall x (by simp [hx])) hstep.1 hstep.2

/-- C2 counterexample: nine successful turns, one turn whose remote call
fails (its user message is retained, no assistant entry), then one more
successful turn leave 21 history entries, exceeding
2 * max_history_length = 20 and refuting the claimed bound. -/
theorem C2_counterexample :
    2 * max_history_length <
      (run_turns (List.replicate 9 ("q", some "a") ++
        [("q", none), ("q", some "a")])).length := by
  decide

/-- C2 (amended): after any number of chat turns, including failed ones, the
history never exceeds 2 * max_history_length + 1 entries; when every turn's
remote call succeeds it never exceeds 2 * max_history_length and the history
always consists of consecutive user/assistant pairs, so every eviction
(which drops the two oldest entries) removes the oldest pair together. -/
theorem C2_amended (ts : List (String × Option String)) :
    (run_turns ts).length ≤ 2 * max_history_length + 1 ∧
      (ts.all (fun t => (t.2).isSome) = true →
        (run_turns ts).length ≤ 2 * max_history_length ∧
          wellPaired (run_turns ts) = true) := by
  constructor
  · exact run_turns_len_aux ts [] (by simp)
  · intro hall
    have h := run_turns_succ_aux ts []
      (by simpa [List.all_eq_true] using hall) rfl (by simp)
    exact ⟨h.2, h.1⟩

/-- C2 witness: one concrete successful turn satisfies both the general
bound and the all-success invariants. -/
theorem C2_witness :
    (run_turns [("hello", some "hi")]).length ≤ 2 * max_history_length + 1 ∧
      ((run_turns [("hello", some "hi")]).length ≤ 2 * max_history_length ∧
        wellPaired (run_turns [("hello", some "hi")]) = true) :=
  ⟨(C2_amended _).1, (C2_amended _).2 (by decide)⟩

/-- C9: query_vector_store gathers up to k snippets from each sub-index in
the fixed order students, rooms, occupancy, maintenance, schema (each query
bounded by min(k, count)), concatenates them in that order, and returns the
first k items of the concatenation — at most k results, a prefix of the
per-index gather rather than a global top-k. -/
theorem C9_query_vector_store (cs cr co cm csc : Collection) (query : String) (k : ℕ) :
    query_vector_store [cs, cr, co, cm, csc] query k =
      (col_fetch cs query k ++ col_fetch cr query k ++ col_fetch co query k
        ++ col_fetch cm query k ++ col_fetch csc query k).take k ∧
    (query_vector_store [cs, cr, co, cm, csc] query k).length ≤ k ∧
    query_vector_store [cs, cr, co, cm, csc] query k ++
        (col_fetch cs query k ++ col_fetch cr query k ++ col_fetch co query k
          ++ col_fetch cm query k ++ col_fetch csc query k).drop k =
      col_fetch cs query k ++ col_fetch cr query k ++ col_fetch co query k
        ++ col_fetch cm query k ++ col_fetch csc query k := by
  have hL : (([cs, cr, co, cm, csc] : List Collection).foldl
      (fun acc c => acc ++ col_fetch c query k) []) =
      col_fetch cs query k ++ col_fetch cr query k ++ col_fetch co query k
        ++ col_fetch cm query k ++ col_fetch csc query k := by
    simp [List.append_assoc]
  refine ⟨?_, ?_, ?_⟩
  · simp only [query_vector_store, hL]
  · simp only [query_vector_store, List.length_take]
    exact Nat.min_le_left _ _
  · simp only [query_vector_store, hL]
    exact List.take_append_drop k _

/-- C10: a sub-index whose query raises (for example chroma rejecting the
computed n_results = 0 on an empty collection) is silently skipped by the
bare except and contributes nothing: the overall result equals the result
with that sub-index removed, and no error reaches the caller. -/
theorem C10_query_vector_store_skip (pre post : List Collection) (c : Collection)
    (query : String) (k : ℕ) (e : String)
    (h : c.q query (min k c.count) = Except.error e) :
    query_vector_store (pre ++ c :: post) query k =
      query_vector_store (pre ++ post) query k := by
  have hc : col_fetch c query k = [] := by simp [col_fetch, h]
  simp only [query_vector_store, List.foldl_append, List.foldl_cons]
  rw [hc, List.append_nil]

/-- C10 witness: a single empty sub-index (whose query raises) yields the
same as no sub-index at all, namely the empty result, with no error. -/
theorem C10_witness :
    query_vector_store [⟨0, fun _ _ => Except.error "Number of requested results 0"⟩]
        "power outage" 5 =
      query_vector_store [] "power outage" 5 ∧
    query_vector_store [⟨0, fun _ _ => Except.error "Number of requested results 0"⟩]
        "power outage" 5 = [] := by
  constructor
  · exact C10_query_vector_store_skip [] []
      ⟨0, fun _ _ => Except.error "Number of requested results 0"⟩
      "power outage" 5 "Number of requested results 0" rfl
  · rfl

/-- Helper: a rejected query yields the rejection message for every store
oracle (no store access can be observed). -/
theorem query_database_rejected (exec : Exec) (q : String)
    (hrej : sql_rejectedB q = true) :
    query_database exec q = Except.ok "Error: Only SELECT queries are allowed." := by
  by_cases h1 : forbiddenKeywords.any (fun k => containsSub k (upperStr q)) = true
  · simp [query_database, h1]
  · have h2 : (!(startsWithB (upperStr (pyStrip q)) "SELECT")) = true := by
      simp only [sql_rejectedB, Bool.or_eq_true] at hrej
      rcases hrej with ha | hb
      · exact absurd ha h1
      · exact hb
    rw [Bool.not_eq_true] at h1
    simp [query_database, h1, h2]

/-- Helper: an accepted query whose execution fails yields an inline error
line built from the sqlite error message. -/
theorem query_database_accepted_error (exec : Exec) (q e : String)
    (hacc : sql_rejectedB q = false) (he : exec q = Except.error e) :
    query_database exec q = Except.ok ("Error: " ++ e) := by
  have h12 := hacc
  simp only [sql_rejectedB, Bool.or_eq_false_iff] at h12
  simp [query_database, h12.1, h12.2, he, execute_query, Value.render]

/-- C6: query_database accepts exactly the texts whose stripped uppercasing
starts with SELECT and whose uppercasing contains no forbidden keyword; any
other input is rejected with the fixed error string for every store oracle
(hence before any store access); an accepted query that fails at execution
yields an inline error line; SELECT 1 is accepted and a one-cell result is
rendered as a pipe-delimited table; the two spec rejection examples are
rejected. -/
theorem C6_run_query (exec : Exec) (q : String) :
    (sql_rejectedB q = false ↔
      (startsWithB (upperStr (pyStrip q)) "SELECT" = true ∧
        ∀ kw ∈ forbiddenKeywords, containsSub kw (upperStr q) = false)) ∧
    (sql_rejectedB q = true →
      query_database exec q = Except.ok "Error: Only SELECT queries are allowed.") ∧
    (sql_rejectedB q = false → ∀ e, exec q = Except.error e →
      query_database exec q = Except.ok ("Error: " ++ e)) ∧
    sql_rejectedB "SELECT 1" = false ∧
    sql_rejectedB "select * from students; DROP TABLE rooms" = true ∧
    sql_rejectedB "UPDATE rooms SET capacity=1" = true ∧
    (exec "SELECT 1" = Except.ok [[("1", Value.int 1)]] →
      query_database exec "SELECT 1" = Except.ok "1\n-\n1") := by
  refine ⟨?_, query_database_rejected exec q,
    fun hacc e he => query_database_accepted_error exec q e hacc he,
    by decide, by decide, by decide, ?_⟩
  · simp only [sql_rejectedB, Bool.or_eq_false_iff, List.any_eq_false,
      Bool.not_eq_true', Bool.not_eq_false']
    constructor
    · rintro ⟨h1, h2⟩
      exact ⟨h2, fun kw hk => by simpa using h1 kw hk⟩
    · rintro ⟨h1, h2⟩
      exact ⟨fun kw hk => by simpa using h2 kw hk, h1⟩
  · intro hex
    simp only [query_database, hex]
    rfl

/-- C7: update_room_capacity rejects new_capacity < 1 leaving the store
untouched (the rejection is issued before any store access: the result is
this same pair for every store); reports no such room, store unchanged, when
no room carries the id; otherwise persists the new capacity with the success
message, so any subsequent read of that room sees the new value. -/
theorem C7_update_room_capacity (db : Store) (rid cap : Int) :
    (cap < 1 → update_room_capacity_store db rid cap = (db, "Capacity must be ≥ 1.")) ∧
    (1 ≤ cap → (∀ r ∈ db.rooms, r.room_id ≠ rid) →
      update_room_capacity_store db rid cap =
        (db, "No room with ID " ++ toString rid ++ " found.")) ∧
    (1 ≤ cap → ∀ r0 ∈ db.rooms, r0.room_id = rid →
      ((update_room_capacity_store db rid cap).2 =
          "Room " ++ toString rid ++ " capacity set to " ++ toString cap ++ "." ∧
        (∀ r ∈ (update_room_capacity_store db rid cap).1.rooms,
          r.room_id = rid → r.capacity = cap) ∧
        (∃ r ∈ (update_room_capacity_store db rid cap).1.rooms,
          r.room_id = rid ∧ r.capacity = cap))) := by
  refine ⟨?_, ?_, ?_⟩
  · intro h
    simp [update_room_capacity_store, h]
  · intro h hnone
    have hne : ¬(cap < 1) := by omega
    have hfil : db.rooms.filter (fun r => r.room_id == rid) = [] := by
      refine List.filter_eq_nil_iff.mpr (fun r hr => ?_)
      simp [hnone r hr]
    simp [update_room_capacity_store, hne, hfil]
  · intro h r0 hr0 hid
    have hne : ¬(cap < 1) := by omega
    have hmem : r0 ∈ db.rooms.filter (fun r => r.room_id == rid) :=
      List.mem_filter.mpr ⟨hr0, by simp [hid]⟩
    have hne2 : (db.rooms.filter (fun r => r.room_id == rid)).isEmpty = false := by
      cases hf : db.rooms.filter (fun r => r.room_id == rid) with
      | nil => rw [hf] at hmem; simp at hmem
      | cons a t => simp
    have hres : update_room_capacity_store db rid cap =
        ({ db with rooms := db.rooms.map (fun r =>
            if r.room_id == rid then { r with capacity := cap } else r) },
          "Room " ++ toString rid ++ " capacity set to " ++ toString cap ++ ".") := by
      simp [update_room_capacity_store, hne, hne2]
    refine ⟨by rw [hres], ?_, ?_⟩
    · intro r hr hrid
      rw [hres] at hr
      simp only [List.mem_map] at hr
      obtain ⟨r1, hr1, heq⟩ := hr
      by_cases hc : r1.room_id == rid
      · rw [if_pos hc] at heq
        rw [← heq]
      · rw [if_neg hc] at heq
        rw [← heq] at hrid
        simp [hrid] at hc
    · refine ⟨{ r0 with capacity := cap }, ?_, hid, rfl⟩
      rw [hres]
      simp only [List.mem_map]
      exact ⟨r0, hr0, by simp [hid]⟩

/-- C7 witness: on a one-room store, updating room 1 to capacity 6 reports
success and the room reads back with capacity 6. -/
theorem C7_witness :
    (update_room_capacity_store ⟨[], [⟨1, 1, "101", 4⟩], []⟩ 1 6).2 =
        "Room " ++ toString (1 : Int) ++ " capacity set to " ++ toString (6 : Int) ++ "." ∧
      ∃ r ∈ (update_room_capacity_store ⟨[], [⟨1, 1, "101", 4⟩], []⟩ 1 6).1.rooms,
        r.room_id = 1 ∧ r.capacity = 6 := by
  have h := (C7_update_room_capacity ⟨[], [⟨1, 1, "101", 4⟩], []⟩ 1 6).2.2 (by norm_num)
    ⟨1, 1, "101", 4⟩ (by simp) rfl
  exact ⟨h.1, h.2.2⟩

/-- C1 counterexample: when the store access behind find_student fails, the
error is converted to the single error row, but the formatter's mandatory
key access on that row raises (KeyError) — the failure is propagated to the
caller as a fault instead of an inline error string, refuting the
all-operations claim. -/
theorem C1_counterexample :
    isOkB (find_student (fun _ => Except.error "disk I/O error") "x") = false := by
  decide

/-- C1 (amended): every store-access failure is caught at the query boundary
and becomes the single error row, so for a failing store: get_schema returns
the empty schema text and predict_occupancy the insufficient-data text
(failure swallowed, not surfaced); query_database surfaces the inline
"Error: ..." string for any accepted query, and update_room_capacity catches
its exception as "Update error: ..."; but each row-formatting operation
(students/rooms/occupancy/maintenance resources, find_student,
room_occupants, check_availability) raises a KeyError on the error row and
propagates a fault to the caller. -/
theorem C1_amended (e term rn q : String) (fl : Int) (m : ℕ) (rid cap : Int) :
    get_schema (fun _ => Except.error e) = "" ∧
    isOkB (get_students (fun _ => Except.error e)) = false ∧
    isOkB (get_rooms (fun _ => Except.error e)) = false ∧
    isOkB (get_occupancy (fun _ => Except.error e)) = false ∧
    isOkB (get_maintenance (fun _ => Except.error e)) = false ∧
    isOkB (find_student (fun _ => Except.error e) term) = false ∧
    isOkB (room_occupants (fun _ => Except.error e) fl rn) = false ∧
    isOkB (check_availability (fun _ => Except.error e)) = false ∧
    predict_occupancy_op (fun _ => Except.error e) m =
      Except.ok "Not enough historical data." ∧
    (sql_rejectedB q = false →
      query_database (fun _ => Except.error e) q = Except.ok ("Error: " ++ e)) ∧
    (1 ≤ cap →
      update_room_capacity_op (Except.error e) rid cap = "Update error: " ++ e) := by
  refine ⟨rfl, rfl, rfl, rfl, rfl, rfl, ?_, rfl, rfl, ?_, ?_⟩
  · rfl
  · intro hacc
    exact query_database_accepted_error _ q e hacc rfl
  · intro hcap
    have hne : ¬(cap < 1) := by omega
    simp [update_room_capacity_op, hne]

/-- C1 witness: the amended statement at a concrete failing store and
concrete inputs. -/
theorem C1_witness :
    get_schema (fun _ => Except.error "disk I/O error") = "" ∧
    isOkB (get_students (fun _ => Except.error "disk I/O error")) = false ∧
    isOkB (find_student (fun _ => Except.error "disk I/O error") "Alex") = false ∧
    isOkB (room_occupants (fun _ => Except.error "disk I/O error") 2 "201") = false ∧
    isOkB (check_availability (fun _ => Except.error "disk I/O error")) = false ∧
    predict_occupancy_op (fun _ => Except.error "disk I/O error") 3 =
      Except.ok "Not enough historical data." ∧
    query_database (fun _ => Except.error "disk I/O error") "SELECT 1" =
      Except.ok ("Error: " ++ "disk I/O error") ∧
    update_room_capacity_op (Except.error "disk I/O error") 1 6 =
      "Update error: " ++ "disk I/O error" := by
  obtain ⟨h1, h2, h3, h4, h5, h6, h7, h8, h9, h10, h11⟩ :=
    C1_amended "disk I/O error" "Alex" "201" "SELECT 1" 2 3 1 6
  exact ⟨h1, h2, h6, h7, h8, h9, h10 (by decide), h11 (by decide)⟩

/-- Helper: joining a nonempty list starts with its first element. -/
theorem joinSep_head (sep x : String) (xs : List String) :
    ∃ t, joinSep sep (x :: xs) = x ++ t := by
  cases xs with
  | nil => exact ⟨"", by simp [joinSep]⟩
  | cons y ys =>
    exact ⟨sep ++ joinSep sep (y :: ys), by simp [joinSep, String.append_assoc]⟩

/-- Helper: the rendered prediction text never equals the insufficient-data
message (it is empty for zero months ahead and starts with "Month +"
otherwise). -/
theorem predict_render_ne (ys : List Int) (months : ℕ) :
    predict_render ys months ≠ "Not enough historical data." := by
  cases months with
  | zero =>
    intro h
    have h0 : predict_render ys 0 = "" := rfl
    rw [h0] at h
    exact absurd h (by decide)
  | succ m =>
    intro h
    simp only [predict_render, predict_preds, List.range_succ_eq_map,
      List.map_cons, List.zip_cons_cons, List.map] at h
    obtain ⟨t, ht⟩ := joinSep_head "\n"
      ("Month +" ++ toString (0 + 1) ++ ": "
        ++ toString (truncToInt (linfit_intercept ys
          + linfit_slope ys * ((ys.length + 0 : ℕ) : ℚ))) ++ " residents") _
    rw [ht] at h
    have hd := congrArg String.data h
    simp only [String.data_append] at hd
    simp at hd

/-- C5: predict_occupancy returns the insufficient-data message exactly when
fewer than two monthly buckets exist; with at least two buckets it produces
exactly months_ahead projected integers from the exact least-squares line
(modelled over the rationals); and on the monthly counts [1, 2, 3, 4] the
next-month projection is the integer 5. -/
theorem C5_predict_occupancy (ys : List Int) (months : ℕ) :
    ((predict_occupancy_counts ys months = "Not enough historical data.") ↔
      ys.length < 2) ∧
    (2 ≤ ys.length → (predict_preds ys months).length = months) ∧
    predict_preds [1, 2, 3, 4] 1 = [5] := by
  refine ⟨⟨?_, ?_⟩, ?_, ?_⟩
  · intro h
    by_contra hlen
    rw [predict_occupancy_counts, if_neg hlen] at h
    exact predict_render_ne ys months h
  · intro h
    simp [predict_occupancy_counts, h]
  · intro _
    simp [predict_preds]
  · have hlen : ([1, 2, 3, 4] : List Int).length = 4 := rfl
    have h4 : List.range 4 = [0, 1, 2, 3] := rfl
    have hs : linfit_slope [1, 2, 3, 4] = 1 := by
      simp only [linfit_slope, hlen, h4]
      norm_num [sumq]
    have hi : linfit_intercept [1, 2, 3, 4] = 1 := by
      simp only [linfit_intercept, hlen, h4, hs]
      norm_num [sumq]
    have h1 : List.range 1 = [0] := rfl
    simp only [predict_preds, h1, List.map_cons, List.map_nil, hlen, hs, hi]
    have harg : (1 : ℚ) + 1 * ((4 + 0 : ℕ) : ℚ) = 5 := by norm_num
    rw [harg]
    have h5 : truncToInt 5 = 5 := by
      rw [truncToInt, if_neg (by norm_num)]
      exact_mod_cast Int.floor_intCast 5
    rw [h5]

/-- C5 witness: the statement at the concrete bucket counts [1, 2, 3, 4] and
one month ahead: sufficient data, exactly one projection, and it is 5. -/
theorem C5_witness :
    ((predict_occupancy_counts [1, 2, 3, 4] 1 = "Not enough historical data.") ↔
      ([1, 2, 3, 4] : List Int).length < 2) ∧
    (predict_preds [1, 2, 3, 4] 1).length = 1 ∧
    predict_preds [1, 2, 3, 4] 1 = [5] := by
  obtain ⟨h1, h2, h3⟩ := C5_predict_occupancy [1, 2, 3, 4] 1
  exact ⟨h1, h2 (by norm_num), h3⟩

/-- Helper: the generation loop never assigns more records to a room than
4 minus the records it already carries: every choice is drawn from the rooms
whose running count is still below 4. -/
theorem assign_room_le :
    ∀ (students : List Student) (counts : Int → ℕ) (chs : List ℕ) (idx : ℕ)
      (rid : Int), counts rid ≤ 4 →
      ((assign_occupancy students counts chs idx).filter
          (fun o => o.room_id == rid)).length + counts rid ≤ 4 := by
  intro students
  induction students with
  | nil =>
    intro counts chs idx rid h
    simpa [assign_occupancy] using h
  | cons s rest ih =>
    intro counts chs idx rid h
    simp only [assign_occupancy]
    by_cases hav : (gen_room_ids.filter (fun r => counts r < 4)).isEmpty
    · rw [if_pos hav]
      simpa using h
    · rw [if_neg hav]
      have hlen : 0 < (gen_room_ids.filter (fun r => counts r < 4)).length := by
        cases hf : gen_room_ids.filter (fun r => counts r < 4) with
        | nil => rw [hf] at hav; simp at hav
        | cons a t => simp [hf]
      have hmem : (gen_room_ids.filter (fun r => counts r < 4)).getD
          (chs.headD 0 % (gen_room_ids.filter (fun r => counts r < 4)).length) 0
          ∈ gen_room_ids.filter (fun r => counts r < 4) := by
        rw [List.getD_eq_getElem?_getD, List.getElem?_eq_getElem
          (Nat.mod_lt _ hlen), Option.getD_some]
        exact List.getElem_mem _
      have hlt : counts ((gen_room_ids.filter (fun r => counts r < 4)).getD
          (chs.headD 0 % (gen_room_ids.filter (fun r => counts r < 4)).length) 0) < 4 := by
        have := (List.mem_filter.mp hmem).2
        simpa using this
      set R := (gen_room_ids.filter (fun r => counts r < 4)).getD
        (chs.headD 0 % (gen_room_ids.filter (fun r => counts r < 4)).length) 0 with hR
      by_cases heq : R == rid
      · have hR_eq : R = rid := by simpa using heq
        rw [hR_eq] at hlt
        rw [hR_eq]
        simp only [List.filter_cons, beq_self_eq_true, if_true, List.length_cons]
        have hih := ih (fun r => if r == rid then counts r + 1 else counts r)
          chs.tail (idx + 1) rid (by simp; omega)
        simp only [beq_self_eq_true, if_true] at hih
        omega
      · have hne' : (R == rid) = false := by
          simpa using heq
        simp only [List.filter_cons, hne']
        have hcounts : (fun r => if r == R then counts r + 1 else counts r) rid =
            counts rid := by
          have : (rid == R) = false := by
            rw [beq_eq_false_iff_ne] at hne' ⊢
            exact fun hx => hne' hx.symm
          simp [this]
        have hih := ih (fun r => if r == R then counts r + 1 else counts r)
          chs.tail (idx + 1) rid (by rw [hcounts]; exact h)
        rw [hcounts] at hih
        simpa using hih

/-- C4 (amended): in every store the generator can produce (any sequence of
random choices), and hence under all read-only dispatcher operations, every
room's open occupancy count is at most its capacity; update_room_capacity,
however, can break the invariant (see the counterexample). -/
theorem C4_amended (chs : List ℕ) :
    ∀ r ∈ (gen_store chs).rooms,
      (open_count (gen_store chs) r.room_id : Int) ≤ r.capacity := by
  intro r hr
  have hcap : r.capacity = 4 := by
    have hall : ∀ r0 ∈ gen_rooms, r0.capacity = 4 := by decide
    exact hall r hr
  have htotal := assign_room_le gen_students (fun _ => 0) chs 1 r.room_id (by norm_num)
  have hopen : open_count (gen_store chs) r.room_id ≤
      ((assign_occupancy gen_students (fun _ => 0) chs 1).filter
        (fun o => o.room_id == r.room_id)).length := by
    rw [open_count]
    have hff : (assign_occupancy gen_students (fun _ => 0) chs 1).filter
        (fun o => o.room_id == r.room_id && o.check_out_date.isNone) =
        ((assign_occupancy gen_students (fun _ => 0) chs 1).filter
          (fun o => o.room_id == r.room_id)).filter
            (fun o => o.check_out_date.isNone) := by
      rw [List.filter_filter]
      apply List.filter_congr
      intro o _
      rw [Bool.and_comm]
    rw [gen_store, hff]
    exact List.length_filter_le _ _
  rw [hcap]
  have : open_count (gen_store chs) r.room_id ≤ 4 := by omega
  exact_mod_cast this

/-- C4 witness: the invariant instantiated at the first generated room for
the all-zero choice sequence. -/
theorem C4_witness :
    (⟨1, 1, "101", 4⟩ : Room) ∈ (gen_store []).rooms ∧
      (open_count (gen_store []) ((⟨1, 1, "101", 4⟩ : Room).room_id) : Int) ≤
        (⟨1, 1, "101", 4⟩ : Room).capacity := by
  have hmem : (⟨1, 1, "101", 4⟩ : Room) ∈ (gen_store []).rooms := by decide
  exact ⟨hmem, C4_amended [] ⟨1, 1, "101", 4⟩ hmem⟩

/-- C4 counterexample: the claim quantifies over all dispatcher operations,
but running update_room_capacity (room 4, capacity 1) on the store the
generator produces for the all-zero choice sequence (where room 4 holds four
active students) drops the capacity below the open occupancy count: the
invariant fails in a reachable state. -/
theorem C4_counterexample :
    room_invB ((update_room_capacity_store (gen_store []) 4 1).1) = false := by
  decide

/-- Helper: the empty suffix is among the suffixes. -/
theorem nil_mem_tailsL : ∀ s : List Char, [] ∈ tailsL s := by
  intro s
  induction s with
  | nil => simp [tailsL]
  | cons c cs ih => simp [tailsL, ih]

/-- Helper: a lone % matches every string. -/
theorem likeMatch_percent_nil : ∀ s : List Char, likeMatch ['%'] s = true := by
  intro s
  have h : likeMatch ['%'] s = (tailsL s).any (fun t => likeMatch [] t) := by
    simp [likeMatch]
  rw [h]
  exact List.any_eq_true.mpr ⟨[], nil_mem_tailsL s, rfl⟩

/-- Helper: a wildcard-free pattern followed by % matches exactly the strings
with the pattern as a case-insensitive prefix. -/
theorem likeMatch_nowild :
    ∀ (t : List Char), (∀ c ∈ t, ¬(c = '%') ∧ ¬(c = '_')) →
      ∀ s : List Char, likeMatch (t ++ ['%']) s = hasPreCI t s := by
  intro t
  induction t with
  | nil =>
    intro _ s
    simpa [hasPreCI] using likeMatch_percent_nil s
  | cons a t ih =>
    intro hw s
    have ha := hw a (by simp)
    have h1 : (a == '%') = false := by simpa using ha.1
    have h2 : (a == '_') = false := by simpa using ha.2
    have hw2 : ∀ c ∈ t, ¬(c = '%') ∧ ¬(c = '_') := fun c hc => hw c (by simp [hc])
    cases s with
    | nil => simp [likeMatch, h1, h2, hasPreCI]
    | cons c cs => simp [likeMatch, h1, h2, hasPreCI, ih hw2 cs]

/-- Helper: scanning a case-insensitive prefix test over all suffixes is the
case-insensitive substring test. -/
theorem any_tailsL_pre (t : List Char) :
    ∀ s : List Char, (tailsL s).any (fun u => hasPreCI t u) = hasSubCI t s := by
  intro s
  induction s with
  | nil => simp [tailsL, hasSubCI]
  | cons c cs ih => simp [tailsL, hasSubCI, ih]

/-- Helper: the interpolated pattern %term% (for a wildcard-free term)
matches exactly the strings containing the term case-insensitively. -/
theorem likeMatch_pattern (t : List Char)
    (hw : ∀ c ∈ t, ¬(c = '%') ∧ ¬(c = '_')) :
    ∀ s : List Char, likeMatch (likePat t) s = hasSubCI t s := by
  intro s
  calc likeMatch (likePat t) s
      = (tailsL s).any (fun u => likeMatch (t ++ ['%']) u) := by
        simp [likePat, likeMatch]
    _ = (tailsL s).any (fun u => hasPreCI t u) := by
        rw [funext (fun u => likeMatch_nowild t hw u)]
    _ = hasSubCI t s := any_tailsL_pre t s

/-- Helper: for wildcard-free terms, the WHERE test of the find_student
query is the case-insensitive substring match on id or name. -/
theorem like_eq_ci (term : String)
    (hw : ∀ c ∈ term.data, ¬(c = '%') ∧ ¬(c = '_')) (s : Student) :
    student_like_match term s = ci_match term s := by
  simp [student_like_match, ci_match, ciContains,
    likeMatch_pattern term.data hw]

/-- Helper: a flatMap whose pieces are all singletons is a map. -/
theorem flatMap_singleton {α β : Type} (l : List α) (f : α → List β) (d : β)
    (h : ∀ a ∈ l, ∃ x, f a = [x]) :
    l.flatMap f = l.map (fun a => (f a).headD d) := by
  induction l with
  | nil => rfl
  | cons a t ih =>
    obtain ⟨x, hx⟩ := h a (by simp)
    have ih2 := ih (fun b hb => h b (by simp [hb]))
    simp [hx, ih2]

/-- Helper: under the key invariants (at most one open occupancy per student,
at most one room per room id) the left joins of one student produce exactly
one row. -/
theorem options_singleton (db : Store) (s : Student)
    (h1 : (db.occupancy.filter (fun o =>
        o.student_id == s.student_id && o.check_out_date.isNone)).length ≤ 1)
    (h2 : ∀ o ∈ db.occupancy,
        (db.rooms.filter (fun r => r.room_id == o.room_id)).length ≤ 1) :
    ∃ x, student_room_options db s = [x] := by
  cases hocc : db.occupancy.filter (fun o =>
      o.student_id == s.student_id && o.check_out_date.isNone) with
  | nil =>
    refine ⟨none, ?_⟩
    unfold student_room_options
    rw [hocc]
    rfl
  | cons o t =>
    have ht : t = [] := by
      rw [hocc] at h1
      simp only [List.length_cons] at h1
      exact List.eq_nil_of_length_eq_zero (by omega)
    subst ht
    have homem : o ∈ db.occupancy := List.mem_of_mem_filter (by rw [hocc]; simp)
    have hr := h2 o homem
    cases hroomf : db.rooms.filter (fun r => r.room_id == o.room_id) with
    | nil =>
      refine ⟨none, ?_⟩
      unfold student_room_options
      rw [hocc]
      show [o].flatMap _ = [none]
      simp only [List.flatMap_cons, List.flatMap_nil, List.append_nil]
      rw [hroomf]
      rfl
    | cons r rt =>
      have hrt : rt = [] := by
        rw [hroomf] at hr
        simp only [List.length_cons] at hr
        exact List.eq_nil_of_length_eq_zero (by omega)
      subst hrt
      refine ⟨some r, ?_⟩
      unfold student_room_options
      rw [hocc]
      show [o].flatMap _ = [some r]
      simp only [List.flatMap_cons, List.flatMap_nil, List.append_nil]
      rw [hroomf]
      rfl

/-- Helper: mapM of a renderer that succeeds elementwise over a mapped list. -/
theorem mapM_map_ok {α β : Type} (g : α → β) (f : β → Except String String)
    (h : α → String) :
    ∀ l : List α, (∀ a ∈ l, f (g a) = Except.ok (h a)) →
      (l.map g).mapM f = Except.ok (l.map h) := by
  intro l
  induction l with
  | nil => intro _; rfl
  | cons a t ih =>
    intro hall
    rw [List.map_cons, List.mapM_cons, hall a (by simp),
      ih (fun b hb => hall b (by simp [hb]))]
    rfl

/-- Helper: the find_student loop body on a well-formed joined row renders
the block of that student and room (the room label obeys Python truthiness). -/
theorem find_student_block_row (s : Student) (r : Option Room) :
    find_student_block (student_row s r) = Except.ok
      ("ID: " ++ s.student_id ++ "\n" ++ "Name: " ++ s.name ++ "\n"
        ++ "Program: " ++ s.program ++ "\n" ++ "Status: " ++ s.status ++ "\n"
        ++ "Room: " ++ room_label r ++ "\n") := by
  cases r with
  | none => rfl
  | some rm =>
    by_cases hrn : rm.room_number.isEmpty = true
    · simp [find_student_block, student_row, List.lookup, Value.truthy, hrn,
        room_label, Value.render, getV]
      try rfl
    · have hrn2 : rm.room_number.isEmpty = false := by
        cases h : rm.room_number.isEmpty
        · rfl
        · exact absurd h hrn
      simp [find_student_block, student_row, List.lookup, Value.truthy, hrn2,
        room_label, Value.render, getV]
      try rfl

/-- C3 (amended): for a search term free of LIKE wildcards and quotes, on a
store where every student has at most one open occupancy record and room ids
are unique, find_student returns the no-match message exactly when no
student's id or name contains the term as an ASCII-case-insensitive
substring (SQLite LIKE is case-insensitive, not case-sensitive as claimed),
and otherwise returns exactly one block per matching student in store order,
each left-joined to the student's current room. -/
theorem C3_amended (db : Store) (term : String)
    (hw : ∀ c ∈ term.data, ¬(c = '%') ∧ ¬(c = '_') ∧ ¬(c = '\x27'))
    (hocc : ∀ s ∈ db.students, (db.occupancy.filter (fun o =>
        o.student_id == s.student_id && o.check_out_date.isNone)).length ≤ 1)
    (hroom : ∀ o ∈ db.occupancy,
        (db.rooms.filter (fun r => r.room_id == o.room_id)).length ≤ 1) :
    (db.students.filter (ci_match term) = [] →
      find_student_pure db term = Except.ok (no_match_msg term)) ∧
    (db.students.filter (ci_match term) ≠ [] →
      find_student_pure db term = Except.ok (joinSep "\n"
        ((db.students.filter (ci_match term)).map (student_block db)))) := by
  have hw2 : ∀ c ∈ term.data, ¬(c = '%') ∧ ¬(c = '_') :=
    fun c hc => ⟨(hw c hc).1, (hw c hc).2.1⟩
  have hfilter : db.students.filter (student_like_match term) =
      db.students.filter (ci_match term) :=
    List.filter_congr (fun s _ => like_eq_ci term hw2 s)
  have hsing : ∀ s ∈ db.students.filter (ci_match term),
      ∃ y, (student_room_options db s).map (fun r => student_row s r) = [y] := by
    intro s hs
    obtain ⟨x, hx⟩ := options_singleton db s
      (hocc s (List.mem_of_mem_filter hs)) hroom
    exact ⟨student_row s x, by rw [hx]; rfl⟩
  have hrows : find_student_rows db term =
      (db.students.filter (ci_match term)).map
        (fun s => student_row s (cur_room db s)) := by
    rw [find_student_rows, hfilter, flatMap_singleton _ _ ([] : Row) hsing]
    apply List.map_congr_left
    intro s hs
    obtain ⟨x, hx⟩ := options_singleton db s
      (hocc s (List.mem_of_mem_filter hs)) hroom
    rw [hx]
    simp [cur_room, hx]
  constructor
  · intro hempty
    rw [find_student_pure, hrows, hempty]
    rfl
  · intro hne
    rw [find_student_pure, hrows]
    have hie : ((db.students.filter (ci_match term)).map
        (fun s => student_row s (cur_room db s))).isEmpty = false := by
      cases hf : db.students.filter (ci_match term) with
      | nil => exact absurd hf hne
      | cons a t => simp [hf]
    unfold find_student_render
    rw [hie, if_neg (by simp : ¬(false = true))]
    rw [mapM_map_ok (fun s => student_row s (cur_room db s)) find_student_block
      (student_block db) (db.students.filter (ci_match term))
      (fun s _ => find_student_block_row s (cur_room db s))]
    rfl

/-- C3 counterexample: the lowercase search term stu2023 does match the
stored id STU2023001 (SQLite LIKE is ASCII-case-insensitive), so find_student
returns that student's block, while the claimed case-sensitive semantics
would return the no-match message: the two disagree on this store. -/
theorem C3_counterexample :
    find_student_pure
        ⟨[⟨"STU2023001", "Alex Smith", "Male", "CS", "", "", "Active"⟩], [], []⟩
        "stu2023" =
      Except.ok ("ID: STU2023001\n" ++ "Name: Alex Smith\n" ++ "Program: CS\n"
        ++ "Status: Active\n" ++ "Room: Not assigned\n") ∧
    find_student_spec_cs
        ⟨[⟨"STU2023001", "Alex Smith", "Male", "CS", "", "", "Active"⟩], [], []⟩
        "stu2023" = Except.ok (no_match_msg "stu2023") ∧
    ("ID: STU2023001\n" ++ "Name: Alex Smith\n" ++ "Program: CS\n"
        ++ "Status: Active\n" ++ "Room: Not assigned\n") ≠ no_match_msg "stu2023" := by
  refine ⟨rfl, rfl, by decide⟩

/-- C3 witness: on a store whose only matching id contains STU202301, the
amended theorem yields exactly one block carrying that id. -/
theorem C3_witness :
    (∀ c ∈ ("STU202301" : String).data, ¬(c = '%') ∧ ¬(c = '_') ∧ ¬(c = '\x27')) ∧
    find_student_pure
        ⟨[⟨"STU2023010", "Jordan Lee", "Male", "Engineering", "", "", "Active"⟩,
          ⟨"STU2023025", "Casey Kim", "Female", "Arts", "", "", "Active"⟩], [], []⟩
        "STU202301" =
      Except.ok ("ID: STU2023010\n" ++ "Name: Jordan Lee\n" ++ "Program: Engineering\n"
        ++ "Status: Active\n" ++ "Room: Not assigned\n") := by
  refine ⟨by decide, ?_⟩
  have h := (C3_amended
    ⟨[⟨"STU2023010", "Jordan Lee", "Male", "Engineering", "", "", "Active"⟩,
      ⟨"STU2023025", "Casey Kim", "Female", "Arts", "", "", "Active"⟩], [], []⟩
    "STU202301" (by decide) (by decide) (by decide)).2 (by decide)
  rw [h]
  rfl

/-- C6 witness: the keyword filter rejects an UPDATE for a concrete oracle,
an accepted SELECT whose execution fails yields the inline error line, and
SELECT 1 renders its one-cell result table. -/
theorem C6_witness :
    query_database (fun _ => Except.ok [[("1", Value.int 1)]])
        "UPDATE rooms SET capacity=1" =
      Except.ok "Error: Only SELECT queries are allowed." ∧
    query_database (fun _ => Except.error "syntax error") "SELECT 1" =
      Except.ok ("Error: " ++ "syntax error") ∧
    query_database (fun _ => Except.ok [[("1", Value.int 1)]]) "SELECT 1" =
      Except.ok "1\n-\n1" := by
  refine ⟨?_, ?_, ?_⟩
  · exact (C6_run_query (fun _ => Except.ok [[("1", Value.int 1)]])
      "UPDATE rooms SET capacity=1").2.1 (by decide)
  · exact (C6_run_query (fun _ => Except.error "syntax error") "SELECT 1").2.2.1
      (by decide) "syntax error" rfl
  · exact (C6_run_query (fun _ => Except.ok [[("1", Value.int 1)]])
      "SELECT 1").2.2.2.2.2.2 rfl
